import Mathlib

/-!
Shallow embedding of the working-directory history/navigation component of
`spyder/plugins/workingdirectory/container.py` (class
`WorkingDirectoryContainer` and the combo box `WorkingDirectoryComboBox`).

The mutable attributes `self.history` (list of path strings),
`self.histindex` (None or an int; Python ints are modelled by `Int` because
`_previous_directory` can drive the index negative) and `self.server_id`
form the navigator state.  External collaborators (`os.path`, `os.chdir`,
the config store, the home directory) are passed in explicitly.  Python
list indexing, `list.pop` and slicing are modelled with their negative-index
wrap-around semantics; uncaught Python exceptions (`TypeError`,
`IndexError`) surface as `Except.error`.
-/

namespace WorkingDirectory

/-- Uncaught Python exceptions that the embedded code can raise. -/
inductive PyErr where
  | typeError
  | indexError
  deriving Repr, DecidableEq

/-- Normalise a Python sequence index against length `n`:
nonnegative indices are used as-is, negative ones count from the end,
anything else is an `IndexError` (`none`). -/
def pyIdx (n : Nat) (i : Int) : Option Nat :=
  if 0 ≤ i ∧ i < (n : Int) then some i.toNat
  else if i < 0 ∧ 0 ≤ i + (n : Int) then some (i + (n : Int)).toNat
  else none

/-- Python `l[i]` on a list of strings. -/
def pyGet (l : List String) (i : Int) : Option String :=
  (pyIdx l.length i).bind fun j => l.get? j

/-- Python `l.pop(i)` (the resulting list; `none` models `IndexError`). -/
def pyPop (l : List String) (i : Int) : Option (List String) :=
  (pyIdx l.length i).map fun j => l.eraseIdx j

/-- Python `l[:k]` for an integer bound `k` (never fails; negative bounds
count from the end and clamp at zero). -/
def pySliceTo (l : List String) (k : Int) : List String :=
  if 0 ≤ k then l.take k.toNat
  else l.take ((k + (l.length : Int)).toNat)

/-- The navigator state: `self.history`, `self.histindex`, `self.server_id`
of `WorkingDirectoryContainer`. -/
structure NavState where
  history : List String
  histindex : Option Int
  server_id : Option String
  deriving Repr, DecidableEq

/-- The external world `chdir` interacts with: `osp.abspath`, `osp.isdir`,
`osp.isfile`, `osp.dirname`, and whether `os.chdir` succeeds on a path
(`chdirOk p = false` models `os.chdir(p)` raising `OSError`). -/
structure FS where
  abspath : String → String
  isdir : String → Bool
  isfile : String → Bool
  dirname : String → String
  chdirOk : String → Bool

/-- Observable outcome of one `chdir` call: the final attribute state, the
payload of `sig_current_directory_changed` when it was emitted, the text
passed to `self.pathedit.add_text` when that line was reached, and whether
the `except OSError` branch ran (the spec calls this outcome
`DirectoryChangeFailed`). -/
structure ChdirOut where
  state : NavState
  emitted : Option String
  added : Option String
  osFailed : Bool
  deriving Repr, DecidableEq

/-- `WorkingDirectoryContainer.chdir(directory, browsing_history, emit,
server_id)`, lines 357-412 of the source, translated statement by
statement.  `os.chdir` failure is `fs.chdirOk directory = false`; the
`except OSError:` handler runs `self.history.pop(self.histindex)`. -/
def chdir (fs : FS) (s : NavState) (directory : String)
    (browsing_history : Bool) (emit : Bool) (server_id : Option String) :
    Except PyErr ChdirOut :=
  -- self.server_id = server_id
  let s : NavState := { s with server_id := server_id }
  -- if directory and not server_id: directory = osp.abspath(str(directory))
  let directory :=
    if directory ≠ "" ∧ server_id = none then fs.abspath directory
    else directory
  -- Working directory history management (if not server_id: ...)
  let managed : Except PyErr (NavState × String) :=
    if server_id = none then
      if browsing_history then
        -- directory = self.history[self.histindex]
        match s.histindex with
        | none => .error .typeError
        | some i =>
          match pyGet s.history i with
          | none => .error .indexError
          | some d => .ok (s, d)
      else if directory ∈ s.history then
        -- self.histindex = self.history.index(directory)
        .ok ({ s with histindex := some (s.history.indexOf directory : Nat) },
             directory)
      else
        -- truncate (or reset) then append
        let hist :=
          match s.histindex with
          | none => ([] : List String)
          | some i => pySliceTo s.history (i + 1)
        let hist := hist ++ [directory]
        .ok ({ s with history := hist,
                      histindex := some ((hist.length : Int) - 1) },
             directory)
    else
      .ok (s, directory)
  match managed with
  | .error e => .error e
  | .ok (s, directory) =>
    -- try: os.chdir(directory); add_text; update_actions; emit
    if server_id = none ∧ fs.chdirOk directory = false then
      -- except OSError: self.history.pop(self.histindex)
      match s.histindex with
      | none => .error .typeError
      | some i =>
        match pyPop s.history i with
        | none => .error .indexError
        | some hist =>
          .ok { state := { s with history := hist },
                emitted := none, added := none, osFailed := true }
    else
      .ok { state := s,
            emitted := if emit then some directory else none,
            added := some directory,
            osFailed := false }

/-- `WorkingDirectoryContainer._previous_directory` (lines 323-327):
`self.histindex -= 1` (a `TypeError` when `histindex` is `None`) followed by
`self.chdir(directory='', browsing_history=True)`. -/
def previousDirectory (fs : FS) (s : NavState) : Except PyErr ChdirOut :=
  match s.histindex with
  | none => .error .typeError
  | some i => chdir fs { s with histindex := some (i - 1) } "" true true none

/-- `WorkingDirectoryContainer._next_directory` (lines 329-333):
`self.histindex += 1` then `self.chdir(directory='', browsing_history=True)`. -/
def nextDirectory (fs : FS) (s : NavState) : Except PyErr ChdirOut :=
  match s.histindex with
  | none => .error .typeError
  | some i => chdir fs { s with histindex := some (i + 1) } "" true true none

/-- The spec's `currentDirectory()`: `entries[cursor]` of the embedded
state (the entry the cursor designates, when there is one). -/
def currentDirectory (s : NavState) : Option String :=
  s.histindex.bind fun i => pyGet s.history i

/-- The spec's positional invariant, as a decidable check: if `entries` is
non-empty then `cursor` is set and `0 <= cursor < len(entries)`. -/
def cursorInRange (s : NavState) : Bool :=
  s.history.isEmpty ||
    (match s.histindex with
     | none => false
     | some i => decide (0 ≤ i) && decide (i < (s.history.length : Int)))

/-- A concrete filesystem in which every path is an existing directory and
`os.chdir` always succeeds, except on the single path `bad` where it raises
`OSError`. -/
def fsExcept (bad : String) : FS where
  abspath := id
  isdir := fun _ => true
  isfile := fun _ => false
  dirname := fun _ => ""
  chdirOk := fun d => d ≠ bad

/-- A concrete filesystem in which `os.chdir` always succeeds. -/
def fsAllOk : FS where
  abspath := id
  isdir := fun _ => true
  isfile := fun _ => false
  dirname := fun _ => ""
  chdirOk := fun _ => true

example :
    chdir fsAllOk ⟨[], none, none⟩ "/A" false true none
      = .ok ⟨⟨["/A"], some 0, none⟩, some "/A", some "/A", false⟩ := by
  rfl

example :
    chdir (fsExcept "/D") ⟨["/A", "/B", "/C"], some 1, none⟩ "/D"
        false true none
      = .ok ⟨⟨["/A", "/B"], some 2, none⟩, none, none, true⟩ := by
  rfl

/-! ## The combo box: `WorkingDirectoryComboBox.valid_text` -/

/-- Value of a decimal digit string (most significant digit first), as
Python `int` computes it. -/
def natOfDigits (ds : List Char) : Nat :=
  ds.foldl (fun acc c => 10 * acc + (c.toNat - 48)) 0

/-- The `re.fullmatch` dance of `valid_text` (source lines 96-102): the
pattern `(?:(\d+):)?(.+)` is matched against the reversed text, so in
forward terms a maximal nonempty run of trailing digits preceded by a colon
preceded by a nonempty remainder is split off as the line number.  The dot
of `(.+)` does not match a newline, so a text containing a newline fails
`fullmatch` and is left untouched, as is a text with no such suffix.
Returns `(line_number, directory)`. -/
def splitLineNumber (s : String) : Option Nat × String :=
  if s.data.contains (Char.ofNat 10) then (none, s)
  else
    let r := s.data.reverse
    let ds := r.takeWhile Char.isDigit
    match ds, r.drop ds.length with
    | _ :: _, ':' :: c :: rest =>
        (some (natOfDigits ds.reverse), String.mk ((c :: rest).reverse))
    | _, _ => (none, s)

/-- `Modelled from the spec: PathComboBox.is_valid` lives in
`spyder/widgets/comboboxes.py`, which is not part of this repository
snapshot.  Per the spec, a path is valid for the combo box exactly when it
is an existing directory (`isDirectory(path)`). -/
def is_valid (fs : FS) (p : String) : Bool :=
  fs.isdir p

/-- The state of the combo box that `valid_text` reads: the current text
and the previously selected text (the fallback return value). -/
structure ComboState where
  currentText : String
  selected_text : String
  deriving Repr, DecidableEq

/-- `WorkingDirectoryComboBox.valid_text` (lines 89-118): parse an optional
trailing `:<digits>` line number, absolutise, replace a file by its
containing directory, replace a non-directory by its parent, and fall back
to `selected_text` when the result is still not valid.  Returns
`(directory, file, line_number)`. -/
def valid_text (fs : FS) (cb : ComboState) :
    String × Option String × Option Nat :=
  if cb.currentText = "" then (cb.selected_text, none, none)
  else
    let (line_number, d0) := splitLineNumber cb.currentText
    let d1 := fs.abspath d0
    let (file, d2) :=
      if fs.isfile d1 then (some d1, fs.dirname d1) else (none, d1)
    let d3 := if fs.isdir d2 then d2 else fs.dirname d2
    if is_valid fs d3 then (d3, file, line_number)
    else (cb.selected_text, file, line_number)

/-- `WorkingDirectoryComboBox.add_current_text_if_valid` (lines 120-130):
the `edit_goto` emission `(file, line_number, "")` when a file was parsed,
and the text handed to `add_text` (and from there, via `selected()` and the
`open_dir` signal, to `chdir`) when it differs from the current text. -/
def add_current_text_if_valid (fs : FS) (cb : ComboState) :
    Option (String × Option Nat × String) × Option String :=
  let (directory, file, line_number) := valid_text fs cb
  let goto := file.map fun f => (f, line_number, "")
  let added :=
    if directory ≠ "" ∧ directory ≠ cb.currentText then some directory
    else none
  (goto, added)

/-! ## `set_history` and `_get_init_workdir` -/

/-- The startup-related configuration options read and written by
`_get_init_workdir`. -/
structure Conf where
  use_project_or_home_directory : Bool
  use_fixed_directory : Bool
  fixed_directory : String
  deriving Repr, DecidableEq

/-- `WorkingDirectoryContainer._get_init_workdir` (lines 273-296): home
directory by default; the fixed startup directory when that option is set
and the directory still exists, otherwise reset the options and use home.
Returns the directory and the possibly-updated configuration. -/
def get_init_workdir (fs : FS) (home : String) (c : Conf) : String × Conf :=
  if c.use_project_or_home_directory then (home, c)
  else if c.use_fixed_directory then
    if fs.isdir c.fixed_directory then (c.fixed_directory, c)
    else (home, { c with use_project_or_home_directory := true,
                         use_fixed_directory := false })
  else (home, c)

/-- Outcome of `set_history`: the directory finally handed to `chdir`, the
configuration after the call, and the `chdir` outcome. -/
structure SetHistoryOut where
  committed : String
  conf : Conf
  result : Except PyErr ChdirOut

/-- `WorkingDirectoryContainer.set_history` (lines 426-450):
`set_conf('history', history)` — which re-enters through the
`@on_conf_change(option='history')` observer `on_history_update` (lines
267-269) and sets `self.history = history` — then picks the working
directory: `_get_init_workdir()` when no command-line directory was given,
else the command-line directory, demoted to the home directory when it is
not an existing directory; finally `self.chdir(workdir)`. -/
def set_history (fs : FS) (home : String) (c : Conf) (s : NavState)
    (history : List String) (cli_workdir : Option String) : SetHistoryOut :=
  let s : NavState := { s with history := history }
  match cli_workdir with
  | none =>
      let (workdir, c) := get_init_workdir fs home c
      { committed := workdir, conf := c,
        result := chdir fs s workdir false true none }
  | some w =>
      let workdir := if fs.isdir w then w else home
      { committed := workdir, conf := c,
        result := chdir fs s workdir false true none }

example : splitLineNumber "/proj/file.py:42" = (some 42, "/proj/file.py") := by
  rfl

example : splitLineNumber "/proj/file.py" = (none, "/proj/file.py") := by
  rfl

example : splitLineNumber ":42" = (none, ":42") := by
  rfl

example : splitLineNumber "42" = (none, "42") := by
  rfl

/-- A concrete filesystem around the file `/proj/file.py` inside the
directory `/proj`. -/
def fsProj : FS where
  abspath := id
  isdir := fun p => p == "/proj"
  isfile := fun p => p == "/proj/file.py"
  dirname := fun p => if p == "/proj/file.py" then "/proj" else ""
  chdirOk := fun _ => true

/-- A concrete filesystem in which `/fixed` and `/home/user` are existing
directories but `/bogus` is not. -/
def fsFixed : FS where
  abspath := id
  isdir := fun p => p == "/fixed" || p == "/home/user"
  isfile := fun _ => false
  dirname := fun _ => ""
  chdirOk := fun _ => true

/-! ## Theorems about the claims -/

/-- C1: the claim says a failed `os.chdir` during a non-remote commit rolls
the history back so that `entries` and `cursor` equal their pre-call
values, for every pre-call state including the revisit case.  The code's
`except OSError: self.history.pop(self.histindex)` does not do that: from
history `["/A", "/B", "/C"]` with cursor 1, committing `/D` when `os.chdir`
fails leaves history `["/A", "/B"]` (the forward entry `/C` is lost) with
cursor 2 — equal to the new length, outside the valid range — and from
history `["/A", "/B"]` with cursor 1, re-committing the existing entry
`/A` when `os.chdir` fails pops that pre-existing entry, leaving history
`["/B"]`. -/
theorem chdir_failed_rollback_divergence :
    (chdir (fsExcept "/D") ⟨["/A", "/B", "/C"], some 1, none⟩ "/D"
         false true none
       = .ok ⟨⟨["/A", "/B"], some 2, none⟩, none, none, true⟩)
  ∧ (⟨["/A", "/B"], some 2, none⟩ : NavState)
      ≠ ⟨["/A", "/B", "/C"], some 1, none⟩
  ∧ (chdir (fsExcept "/A") ⟨["/A", "/B"], some 1, none⟩ "/A"
         false true none
       = .ok ⟨⟨["/B"], some 0, none⟩, none, none, true⟩)
  ∧ (⟨["/B"], some 0, none⟩ : NavState) ≠ ⟨["/A", "/B"], some 1, none⟩ :=
  ⟨rfl, by decide, rfl, by decide⟩

/-- C2: the claim says `goBack` with cursor 0 or unset fails with
`NoHistory` and mutates nothing.  The code has no such guard:
`_previous_directory` decrements the index to -1 and `chdir` then reads
`self.history[-1]`, which in Python is the *last* entry, so from history
`["/A", "/B"]` with cursor 0 the call succeeds, changes the process
directory to `/B`, emits the change signal and leaves the cursor at -1;
with the cursor unset (`None`) the decrement raises an uncaught
`TypeError`. -/
theorem goBack_at_zero_divergence :
    (previousDirectory fsAllOk ⟨["/A", "/B"], some 0, none⟩
       = .ok ⟨⟨["/A", "/B"], some (-1), none⟩, some "/B", some "/B", false⟩)
  ∧ (⟨["/A", "/B"], some (-1), none⟩ : NavState) ≠ ⟨["/A", "/B"], some 0, none⟩
  ∧ previousDirectory fsAllOk ⟨["/A", "/B"], none, none⟩
      = .error .typeError :=
  ⟨rfl, by decide, rfl⟩

/-- C3: the claim says every operation preserves
`0 <= cursor < len(entries)` (for non-empty `entries`), on failure as well
as on success.  A failed commit violates it: from history `["/A"]` with
cursor 0, committing `/B` when `os.chdir` fails ends with history `["/A"]`
and cursor 1 = `len(entries)`, outside the range (the pre-call state did
satisfy the invariant). -/
theorem cursor_invariant_violation :
    (chdir (fsExcept "/B") ⟨["/A"], some 0, none⟩ "/B" false true none
       = .ok ⟨⟨["/A"], some 1, none⟩, none, none, true⟩)
  ∧ cursorInRange ⟨["/A"], some 0, none⟩ = true
  ∧ cursorInRange ⟨["/A"], some 1, none⟩ = false :=
  ⟨rfl, by decide, by decide⟩

/-- C7: committing the text `/proj/file.py:42` when `/proj/file.py` is an
existing file resolves the directory to `/proj`, emits
`edit_goto("/proj/file.py", 42, "")` with the line parsed from the
trailing `:42`, and the text handed on towards `chdir` is `/proj`, so the
history receives `/proj` and never the literal `/proj/file.py:42`. -/
theorem file_with_line_number_commit :
    valid_text fsProj ⟨"/proj/file.py:42", "/old"⟩
        = ("/proj", some "/proj/file.py", some 42)
  ∧ add_current_text_if_valid fsProj ⟨"/proj/file.py:42", "/old"⟩
        = (some ("/proj/file.py", some 42, ""), some "/proj")
  ∧ chdir fsProj ⟨[], none, none⟩ "/proj" false true none
        = .ok ⟨⟨["/proj"], some 0, none⟩, some "/proj", some "/proj", false⟩
  ∧ currentDirectory ⟨["/proj"], some 0, none⟩ = some "/proj"
  ∧ "/proj/file.py:42" ∉ (["/proj"] : List String) :=
  ⟨rfl, rfl, rfl, rfl, by decide⟩

/-- C9, counterexample: the claim says that when the command-line initial
path is not an existing directory `set_history` falls back to the
*configured* initial directory (the fixed startup directory when configured
and valid).  With the fixed-directory option set to the existing directory
`/fixed` and the invalid command-line path `/bogus`, the code commits the
home directory `/home/user`, not `/fixed`. -/
theorem set_history_invalid_cli_counterexample :
    (set_history fsFixed "/home/user" ⟨false, true, "/fixed"⟩ ⟨[], none, none⟩
        [] (some "/bogus")).committed = "/home/user"
  ∧ (get_init_workdir fsFixed "/home/user" ⟨false, true, "/fixed"⟩).1
        = "/fixed"
  ∧ "/home/user" ≠ "/fixed" :=
  ⟨rfl, rfl, by decide⟩

/-- C9, amended: `set_history` commits, via `chdir` on the seeded state,
the supplied command-line path when it is an existing directory and the
home directory otherwise (the configured initial directory from
`_get_init_workdir` is consulted only when no command-line path is
supplied). -/
theorem set_history_commit_target (fs : FS) (home : String) (c : Conf)
    (s : NavState) (history : List String) (w : String) :
    (set_history fs home c s history (some w)).committed
        = (if fs.isdir w then w else home)
  ∧ (set_history fs home c s history (some w)).result
        = chdir fs { s with history := history }
            (if fs.isdir w then w else home) false true none
  ∧ (set_history fs home c s history none).committed
        = (get_init_workdir fs home c).1 :=
  ⟨rfl, rfl, rfl⟩

/-! ## Helper lemmas -/

lemma pySliceTo_natCast (l : List String) (k : Nat) :
    pySliceTo l (k : Int) = l.take k := by
  simp [pySliceTo]

lemma pySliceTo_sublist (l : List String) (k : Int) :
    (pySliceTo l k).Sublist l := by
  unfold pySliceTo
  split <;> exact l.take_sublist _

lemma pyGet_natCast (l : List String) (j : Nat) (hj : j < l.length) :
    pyGet l (j : Int) = l.get? j := by
  have h0 : (0 : Int) ≤ (j : Int) := Int.natCast_nonneg j
  have h1 : (j : Int) < (l.length : Int) := by exact_mod_cast hj
  simp [pyGet, pyIdx, h0, h1]

/-- `chdir` in browsing mode with a readable index and a successful
`os.chdir`: pure navigation, no history mutation. -/
lemma chdir_browsing (fs : FS) (hl : List String) (j : Int)
    (sid : Option String) (d : String)
    (hget : pyGet hl j = some d) (hok : fs.chdirOk d = true) :
    chdir fs ⟨hl, some j, sid⟩ "" true true none
      = .ok ⟨⟨hl, some j, none⟩, some d, some d, false⟩ := by
  simp [chdir, hget, hok]

/-- C4: from a positioned state (cursor `i` in range), successfully
committing a non-remote path whose absolutised form is not yet in the
history truncates the history to indices `[0..i]`, appends the path, and
sets the cursor to the new last index `i + 1`. -/
theorem chdir_new_path_truncates_appends (fs : FS) (h : List String)
    (i : Nat) (sid : Option String) (directory : String)
    (hne : directory ≠ "")
    (hmem : fs.abspath directory ∉ h)
    (hil : i < h.length)
    (hok : fs.chdirOk (fs.abspath directory) = true) :
    chdir fs ⟨h, some (i : Int), sid⟩ directory false true none
      = .ok ⟨⟨h.take (i + 1) ++ [fs.abspath directory],
             some ((i : Int) + 1), none⟩,
             some (fs.abspath directory), some (fs.abspath directory),
             false⟩ := by
  have hslice : pySliceTo h ((i : Int) + 1) = h.take (i + 1) := by
    rw [show (i : Int) + 1 = ((i + 1 : Nat) : Int) by omega, pySliceTo_natCast]
  have hlen : (h.take (i + 1) ++ [fs.abspath directory]).length = i + 2 := by
    simp [List.length_take, Nat.min_eq_left (Nat.succ_le_of_lt hil)]
  simp [chdir, hne, hmem, hok, hslice, hlen]
  omega

/-- C4, witness: from history `["/A", "/B", "/C"]` with cursor 1,
committing `/D` yields history `["/A", "/B", "/D"]` with cursor 2. -/
theorem chdir_new_path_truncates_appends_witness :
    ("/D" ≠ "" ∧ fsAllOk.abspath "/D" ∉ (["/A", "/B", "/C"] : List String)
      ∧ 1 < (["/A", "/B", "/C"] : List String).length
      ∧ fsAllOk.chdirOk (fsAllOk.abspath "/D") = true)
  ∧ chdir fsAllOk ⟨["/A", "/B", "/C"], some 1, none⟩ "/D" false true none
      = .ok ⟨⟨["/A", "/B", "/D"], some 2, none⟩, some "/D", some "/D",
             false⟩ :=
  ⟨⟨by decide, by decide, by decide, rfl⟩,
    chdir_new_path_truncates_appends fsAllOk ["/A", "/B", "/C"] 1 none "/D"
      (by decide) (by decide) (by decide) rfl⟩

/-- C5: committing a non-remote path whose absolutised form is already in
the history moves the cursor to the index of its (first) occurrence and
leaves the history list unmutated; the entry at that index is the
committed path. -/
theorem chdir_revisit_moves_cursor (fs : FS) (s : NavState)
    (directory : String)
    (hne : directory ≠ "")
    (hmem : fs.abspath directory ∈ s.history)
    (hok : fs.chdirOk (fs.abspath directory) = true) :
    chdir fs s directory false true none
      = .ok ⟨{ s with
                histindex :=
                  some (s.history.indexOf (fs.abspath directory) : Nat),
                server_id := none },
             some (fs.abspath directory), some (fs.abspath directory),
             false⟩
  ∧ s.history.get? (s.history.indexOf (fs.abspath directory))
      = some (fs.abspath directory) := by
  constructor
  · simp [chdir, hne, hmem, hok]
  · exact List.indexOf_get? hmem

/-- C5, witness: from history `["/A", "/B"]` with cursor 1, committing
`/A` sets the cursor to 0 and leaves the history unchanged. -/
theorem chdir_revisit_moves_cursor_witness :
    ("/A" ≠ "" ∧ fsAllOk.abspath "/A" ∈ (["/A", "/B"] : List String)
      ∧ fsAllOk.chdirOk (fsAllOk.abspath "/A") = true)
  ∧ (chdir fsAllOk ⟨["/A", "/B"], some 1, none⟩ "/A" false true none
       = .ok ⟨⟨["/A", "/B"], some 0, none⟩, some "/A", some "/A", false⟩
     ∧ (["/A", "/B"] : List String).get? ((["/A", "/B"] : List String).indexOf "/A")
         = some "/A") :=
  ⟨⟨by decide, by decide, rfl⟩,
    chdir_revisit_moves_cursor fsAllOk ⟨["/A", "/B"], some 1, none⟩ "/A"
      (by decide) (by decide) rfl⟩

/-- C6: from a positioned state with cursor `i > 0`, `goBack` followed by
`goForward`, with both `os.chdir` calls succeeding, restores the original
cursor and the original current directory and leaves the history list
unchanged throughout. -/
theorem goBack_goForward_roundtrip (fs : FS) (h : List String) (i : Nat)
    (sid : Option String) (d1 d2 : String)
    (hi0 : 0 < i)
    (hg1 : h.get? (i - 1) = some d1)
    (hg2 : h.get? i = some d2)
    (hok1 : fs.chdirOk d1 = true) (hok2 : fs.chdirOk d2 = true) :
    (previousDirectory fs ⟨h, some (i : Int), sid⟩).bind
        (fun o1 => nextDirectory fs o1.state)
      = .ok ⟨⟨h, some (i : Int), none⟩, some d2, some d2, false⟩
  ∧ currentDirectory ⟨h, some (i : Int), none⟩
      = currentDirectory ⟨h, some (i : Int), sid⟩ := by
  have hil : i < h.length := by
    by_contra hc
    rw [List.get?_eq_none.2 (Nat.le_of_not_lt hc)] at hg2
    exact Option.noConfusion hg2
  have hg1i : pyGet h ((i : Int) - 1) = some d1 := by
    rw [show (i : Int) - 1 = ((i - 1 : Nat) : Int) by omega,
      pyGet_natCast _ _ (lt_of_le_of_lt (Nat.sub_le i 1) hil)]
    exact hg1
  have hg2i : pyGet h (i : Int) = some d2 := by
    rw [pyGet_natCast _ _ hil]
    exact hg2
  refine ⟨?_, rfl⟩
  show (chdir fs ⟨h, some ((i : Int) - 1), sid⟩ "" true true none).bind
      (fun o1 => nextDirectory fs o1.state) = _
  rw [chdir_browsing fs h ((i : Int) - 1) sid d1 hg1i hok1]
  show nextDirectory fs ⟨h, some ((i : Int) - 1), none⟩ = _
  show chdir fs ⟨h, some ((i : Int) - 1 + 1), none⟩ "" true true none = _
  rw [show (i : Int) - 1 + 1 = (i : Int) by ring]
  exact chdir_browsing fs h (i : Int) none d2 hg2i hok2

/-- C6, witness: from history `["/A", "/B"]` with cursor 1, `goBack` then
`goForward` returns to cursor 1 with the history intact. -/
theorem goBack_goForward_roundtrip_witness :
    (0 < 1
      ∧ (["/A", "/B"] : List String).get? 0 = some "/A"
      ∧ (["/A", "/B"] : List String).get? 1 = some "/B"
      ∧ fsAllOk.chdirOk "/A" = true ∧ fsAllOk.chdirOk "/B" = true)
  ∧ ((previousDirectory fsAllOk ⟨["/A", "/B"], some 1, none⟩).bind
        (fun o1 => nextDirectory fsAllOk o1.state)
      = .ok ⟨⟨["/A", "/B"], some 1, none⟩, some "/B", some "/B", false⟩
     ∧ currentDirectory ⟨["/A", "/B"], some 1, none⟩
         = currentDirectory ⟨["/A", "/B"], some 1, none⟩) :=
  ⟨⟨by decide, rfl, rfl, rfl, rfl⟩,
    goBack_goForward_roundtrip fsAllOk ["/A", "/B"] 1 none "/A" "/B"
      (by decide) rfl rfl rfl rfl⟩

/-- C8: a remote commit (`server_id` set) skips path resolution, skips
`os.chdir`, and mutates no history: the call returns with `history` and
`histindex` untouched, `self.server_id` recorded, and the
directory-changed signal emitted with the raw directory. -/
theorem chdir_remote_skips_history (fs : FS) (s : NavState)
    (directory : String) (b : Bool) (sid : String) :
    chdir fs s directory b true (some sid)
      = .ok ⟨{ s with server_id := some sid },
             some directory, some directory, false⟩ := by
  simp [chdir]

/-- C10: a successful non-remote, non-browsing commit preserves global
freedom from duplicates: if the history contains no duplicate paths before
the call, it contains none after. -/
theorem chdir_preserves_nodup (fs : FS) (s : NavState) (directory : String)
    (out : ChdirOut)
    (hnd : s.history.Nodup)
    (hok : chdir fs s directory false true none = .ok out)
    (hsucc : out.osFailed = false) :
    out.state.history.Nodup := by
  simp only [chdir, Bool.false_eq_true, if_false, ne_eq, and_true, if_true,
    true_and] at hok
  split at hok
  case h_1 heq =>
    -- `managed` cannot be an error here: both history-management branches
    -- of a non-browsing call return `ok`
    split at heq <;> split at heq <;> exact Except.noConfusion heq
  case h_2 s1 d1 heq =>
    -- resolve the history-management outcome first, then the try-block
    split at heq <;> split at heq <;> cases heq <;> split at hok
    -- revisit, `os.chdir` failed: the handler yields `osFailed := true`
    · dsimp only at hok
      split at hok
      · exact Except.noConfusion hok
      · cases hok
        simp at hsucc
    -- revisit, success: history unchanged
    · cases hok
      exact hnd
    -- new path, `os.chdir` failed: the handler yields `osFailed := true`
    · dsimp only at hok
      split at hok
      · exact Except.noConfusion hok
      · cases hok
        simp at hsucc
    -- new path, success: truncation is a sublist, the new entry is fresh
    · rename_i hne hmem hchd
      cases hok
      cases hx : s.histindex with
      | none => simp
      | some i =>
        simp only [hx]
        rw [List.nodup_append]
        refine ⟨hnd.sublist (pySliceTo_sublist _ _),
          List.nodup_singleton _, ?_⟩
        intro x hx1 hx2
        rw [List.mem_singleton] at hx2
        subst hx2
        exact hmem ((pySliceTo_sublist s.history (i + 1)).subset hx1)
    -- the same four cases with the empty-string directory left unresolved
    · dsimp only at hok
      split at hok
      · exact Except.noConfusion hok
      · cases hok
        simp at hsucc
    · cases hok
      exact hnd
    · dsimp only at hok
      split at hok
      · exact Except.noConfusion hok
      · cases hok
        simp at hsucc
    · rename_i hne hmem hchd
      cases hok
      cases hx : s.histindex with
      | none => simp
      | some i =>
        simp only [hx]
        rw [List.nodup_append]
        refine ⟨hnd.sublist (pySliceTo_sublist _ _),
          List.nodup_singleton _, ?_⟩
        intro x hx1 hx2
        rw [List.mem_singleton] at hx2
        subst hx2
        exact hmem ((pySliceTo_sublist s.history (i + 1)).subset hx1)

/-- C10, witness: committing `/B` from the duplicate-free history
`["/A"]` (cursor 0) succeeds and leaves the duplicate-free history
`["/A", "/B"]`. -/
theorem chdir_preserves_nodup_witness :
    ((["/A"] : List String).Nodup
      ∧ chdir fsAllOk ⟨["/A"], some 0, none⟩ "/B" false true none
          = .ok ⟨⟨["/A", "/B"], some 1, none⟩, some "/B", some "/B", false⟩
      ∧ (⟨⟨["/A", "/B"], some 1, none⟩, some "/B", some "/B", false⟩ :
            ChdirOut).osFailed = false)
  ∧ (⟨⟨["/A", "/B"], some 1, none⟩, some "/B", some "/B", false⟩ :
        ChdirOut).state.history.Nodup :=
  ⟨⟨by decide, rfl, rfl⟩,
    chdir_preserves_nodup fsAllOk ⟨["/A"], some 0, none⟩ "/B" _
      (by decide) rfl rfl⟩

end WorkingDirectory
